import Mathlib

/-!
Verification of the IVCA career-matcher core (src/job_scraper.py,
src/user_skills.py, src/utils.py) against its natural-language
specification.

Strings are modelled as Lean `String` (a list of characters); Python string
primitives (`strip`, `lower`, `split`, `in`, `title`, `replace`) are embedded
as executable functions below, restricted to the ASCII behaviour the
repository exercises.  Python float arithmetic in the score computation is
modelled as exact rational arithmetic, and Python `round` as round-half-to-even
on the exact value.  File and clock effects are modelled by passing the
environment (current epoch time, date formatter, on-disk cache contents)
explicitly.
-/

/-- Python `str.isspace` on the ASCII whitespace characters (the set stripped
by `str.strip()` and matched by the regex class `\s`). -/
def pyIsSpace (c : Char) : Bool :=
  c == ' ' || c == '\t' || c == '\n' || c == '\r' || c == '\x0b' || c == '\x0c'

/-- Python `str.strip()`: remove leading and trailing whitespace. -/
def pyStrip (s : String) : String :=
  ⟨((s.data.dropWhile pyIsSpace).reverse.dropWhile pyIsSpace).reverse⟩

/-- Python `str.lower()` on one ASCII character. -/
def pyLowerChar (c : Char) : Char :=
  if 'A' ≤ c ∧ c ≤ 'Z' then Char.ofNat (c.toNat + 32) else c

/-- Python `str.lower()` (ASCII). -/
def pyLower (s : String) : String := ⟨s.data.map pyLowerChar⟩

/-- Substring occurrence over character lists: `needle` occurs contiguously in
`hay` (the empty list occurs in everything, as for Python `"" in s`). -/
def charsInfixOf (needle : List Char) : List Char → Bool
  | [] => needle.isEmpty
  | c :: cs => needle.isPrefixOf (c :: cs) || charsInfixOf needle cs

/-- Python `needle in hay` for strings: substring containment. -/
def strContains (hay needle : String) : Bool := charsInfixOf needle.data hay.data

/-- Python `s.split(sep)` for a one-character separator, keeping empty pieces
(so `"".split(',') == [""]`), accumulator-based. -/
def splitCharAux (sep : Char) : List Char → List Char → List String
  | [], acc => [⟨acc.reverse⟩]
  | c :: cs, acc =>
    if c == sep then ⟨acc.reverse⟩ :: splitCharAux sep cs []
    else splitCharAux sep cs (c :: acc)

/-- Python `s.split(sep)` for a one-character separator. -/
def splitOnChar (sep : Char) (s : String) : List String := splitCharAux sep s.data []

/-- Python `s.replace(old, new)` for one-character pattern and replacement. -/
def replaceChar (old new : Char) (s : String) : String :=
  ⟨s.data.map (fun c => if c == old then new else c)⟩

/-- Python `round` (round-half-to-even) of the exact rational `num / den`.
For `den = 0` the value is never used by the embedded code (the source guards
the division); the function then returns `num / den = 0` by `Nat` convention. -/
def pyRoundHalfEven (num den : Nat) : Nat :=
  let q := num / den
  let r := num % den
  if 2 * r < den then q
  else if den < 2 * r then q + 1
  else if q % 2 = 0 then q else q + 1

/-- The skill-cleaning comprehension of `calculate_skill_match`
(src/job_scraper.py lines 192-193):
`[skill.lower().strip() for skill in skills if skill.strip()]`. -/
def cleanSkills (skills : List String) : List String :=
  (skills.filter (fun s => pyStrip s != "")).map (fun s => pyStrip (pyLower s))

/-- The per-skill match test of `calculate_skill_match`
(src/job_scraper.py line 196):
`any(job_skill in skill or skill in job_skill for job_skill in job_skills_lower)`. -/
def skillMatched (job_skills_lower : List String) (skill : String) : Bool :=
  job_skills_lower.any (fun job_skill =>
    strContains skill job_skill || strContains job_skill skill)

/-- `calculate_skill_match` (src/job_scraper.py lines 186-204).  The Python
float expression `(matches / len(user_skills_lower)) * 100` followed by
`round` is modelled as round-half-to-even of the exact rational
`100 * matches / len(user_skills_lower)`. -/
def calculate_skill_match (job_skills user_skills : List String) : Nat :=
  if job_skills.isEmpty || user_skills.isEmpty then 0
  else
    let job_skills_lower := cleanSkills job_skills
    let user_skills_lower := cleanSkills user_skills
    let numMatches := (user_skills_lower.filter (fun skill => skillMatched job_skills_lower skill)).length
    let match_percentage :=
      if 0 < user_skills_lower.length then
        pyRoundHalfEven (100 * numMatches) user_skills_lower.length
      else 0
    min match_percentage 100

/-- The spec's matched predicate (spec.md section 4.1): a candidate skill is
matched iff it equals some reference skill case-insensitively or either string
contains the other as a substring.  Both sides are cleaned (lower-cased,
trimmed, empty tokens discarded) as the spec prescribes. -/
def specSkillMatched (reference_skills : List String) (s : String) : Bool :=
  (cleanSkills reference_skills).any (fun r =>
    r == s || strContains s r || strContains r s)

/-- The spec's matched count: number of cleaned candidate skills matched
against the reference set. -/
def specMatchedCount (reference_skills candidate_skills : List String) : Nat :=
  ((cleanSkills candidate_skills).filter (specSkillMatched reference_skills)).length

/-- Python `str.title()` (ASCII): upper-case each letter that follows a
non-letter, lower-case the other letters. -/
def pyTitleAux : Bool → List Char → List Char
  | _, [] => []
  | prevAlpha, c :: cs =>
    if c.isAlpha then
      (if prevAlpha then pyLowerChar c else c.toUpper) :: pyTitleAux true cs
    else c :: pyTitleAux false cs

/-- Python `str.title()` (ASCII). -/
def pyTitle (s : String) : String := ⟨pyTitleAux false s.data⟩

/-- Python `sep.join(parts)`. -/
def joinWith (sep : String) : List String → String
  | [] => ""
  | [x] => x
  | x :: xs => x ++ sep ++ joinWith sep xs

/-- A job record (the dict built by `generate_example_jobs`,
src/job_scraper.py lines 168-181).  `requirements = none` models a dict whose
`requirements` key is absent or not a string (the two cases
`filter_jobs_by_skills` skips). -/
structure Job where
  id : String
  title : String
  company : String
  location : String
  salary : String
  description : String
  requirements : Option String
  date_posted : String
  skills_match : Nat
  url : String
deriving DecidableEq

/-- The `job_titles` pool of `generate_example_jobs`
(src/job_scraper.py lines 128-139). -/
def job_titles (primary_skill : String) : List String :=
  [pyTitle primary_skill ++ " Developer",
   "Senior " ++ pyTitle primary_skill ++ " Engineer",
   pyTitle primary_skill ++ " Analyst",
   pyTitle primary_skill ++ " Consultant",
   "Lead " ++ pyTitle primary_skill ++ " Specialist",
   pyTitle primary_skill ++ " Project Manager",
   pyTitle primary_skill ++ " Architect",
   "Junior " ++ pyTitle primary_skill ++ " Developer",
   pyTitle primary_skill ++ " Designer",
   pyTitle primary_skill ++ " Support Specialist"]

/-- The `companies` pool (src/job_scraper.py lines 141-145). -/
def companies : List String :=
  ["TechCorp Inc.", "Innovative Solutions", "Global Systems",
   "NextGen Tech", "Future Software", "CodeMasters",
   "Digital Dynamics", "Tech Ventures", "ByteWorks", "DataSphere"]

/-- The `locations` pool, `[location] * 5 ++ [...]`
(src/job_scraper.py line 147). -/
def job_locations (location : String) : List String :=
  [location, location, location, location, location,
   "Remote", "New York, NY", "San Francisco, CA", "Austin, TX", "Seattle, WA"]

/-- The `salaries` pool (src/job_scraper.py lines 149-153). -/
def salaries : List String :=
  ["$70,000 - $90,000", "$90,000 - $120,000", "$120,000 - $150,000",
   "$80,000 - $100,000", "$100,000 - $130,000", "Competitive",
   "$85,000 - $115,000", "$75,000 - $95,000", "$110,000 - $140,000", "DOE"]

/-- The `requirements` string built per job (src/job_scraper.py
lines 158-166). -/
def job_requirements (skills : List String) (primary_skill : String) (i : Nat) : String :=
  let base := "- Proficiency in " ++ primary_skill ++ "\n"
  let withRest := (skills.drop 1).foldl
    (fun acc sk =>
      if pyStrip sk != "" then acc ++ "- Experience with " ++ pyStrip sk ++ "\n" else acc)
    base
  withRest ++ "- " ++ toString (3 + i) ++ " years of software development experience\n"
    ++ "- Bachelor\x27s degree in Computer Science or related field\n"
    ++ "- Strong communication skills\n"

/-- The `description` string built per job (src/job_scraper.py
lines 174-176). -/
def job_description (title : String) (skills : List String) : String :=
  "We are seeking a talented " ++ title ++ " to join our team. "
    ++ "You will be working on cutting-edge projects using "
    ++ joinWith ", " ((skills.filter (fun s => pyStrip s != "")).map pyStrip)
    ++ ". This is an exciting opportunity to grow your career in a dynamic environment."

/-- One iteration of the loop of `generate_example_jobs`
(src/job_scraper.py lines 157-182).  `now` models `int(time.time())` and
`dateOf` the `datetime.now().replace(day=day - (i % 14)).strftime(..)`
expression as a total function of `i % 14`.  The real expression is not
total: `replace` raises `ValueError` whenever the current day-of-month is at
most `i % 14`; that raising behaviour is modelled faithfully by
`exampleJobAtChecked` and `search_jobs_checked` below, and this total variant
serves only statements in which the date computation is immaterial. -/
def exampleJobAt (now : Nat) (dateOf : Nat → String) (location : String)
    (skills : List String) (primary_skill : String) (i : Nat) : Job :=
  let titles := job_titles primary_skill
  { id := "job_" ++ toString now ++ "_" ++ toString i
    title := titles.getD (i % titles.length) ""
    company := companies.getD (i % companies.length) ""
    location := (job_locations location).getD (i % (job_locations location).length) ""
    salary := salaries.getD (i % salaries.length) ""
    description := job_description (titles.getD (i % titles.length) "") skills
    requirements := some (job_requirements skills primary_skill i)
    date_posted := dateOf (i % 14)
    skills_match := calculate_skill_match skills skills
    url := "https://example.com/jobs/" ++ toString i ++ "_"
      ++ replaceChar ' ' '_' (pyLower primary_skill) }

/-- `generate_example_jobs` (src/job_scraper.py lines 122-184): one job per
`i in range(min(count, 10))`. -/
def generate_example_jobs (now : Nat) (dateOf : Nat → String)
    (keywords location : String) (count : Nat) : List Job :=
  let skills := splitOnChar ',' keywords
  let primary_skill := match skills with
    | [] => "general"
    | s :: _ => pyStrip s
  (List.range (min count 10)).map (exampleJobAt now dateOf location skills primary_skill)

/-- A cache entry, `{'timestamp': ..., 'jobs': [...]}`
(src/job_scraper.py lines 114-117); the float `time.time()` is modelled as
whole epoch seconds. -/
structure CacheEntry where
  timestamp : Nat
  jobs : List Job
deriving DecidableEq

/-- The in-memory `job_cache` dict, as an insertion-ordered association
list. -/
def Cache := List (String × CacheEntry)
deriving instance DecidableEq for Cache

/-- Python dict lookup on an association list. -/
def alistGet {β : Type} (k : String) : List (String × β) → Option β
  | [] => none
  | (k', v) :: rest => if k' == k then some v else alistGet k rest

/-- Python dict assignment `d[k] = v` on an association list: replace in
place, appending when the key is new. -/
def alistSet {β : Type} (k : String) (v : β) : List (String × β) → List (String × β)
  | [] => [(k, v)]
  | (k', v') :: rest =>
    if k' == k then (k, v) :: rest else (k', v') :: alistSet k v rest

/-- The cache key `f"{keywords}_{location}".lower().replace(' ', '_')`
(src/job_scraper.py line 95). -/
def searchKeyOf (keywords location : String) : String :=
  replaceChar ' ' '_' (pyLower (keywords ++ "_" ++ location))

/-- `search_jobs` (src/job_scraper.py lines 93-120).  The current time and the
date formatter are passed explicitly; the result is the returned job list
paired with the in-memory cache after the call (the source additionally
rewrites the cache file on regeneration, a file effect outside the state
modelled here). -/
def search_jobs (now : Nat) (dateOf : Nat → String) (cache : Cache)
    (keywords location : String) (max_results : Nat) (use_cache : Bool) :
    List Job × Cache :=
  let search_key := searchKeyOf keywords location
  match (if use_cache then alistGet search_key cache else none) with
  | some entry =>
    if now - entry.timestamp < 86400 then (entry.jobs, cache)
    else
      let all_jobs := generate_example_jobs now dateOf keywords location max_results
      (all_jobs, alistSet search_key ⟨now, all_jobs⟩ cache)
  | none =>
    let all_jobs := generate_example_jobs now dateOf keywords location max_results
    (all_jobs, alistSet search_key ⟨now, all_jobs⟩ cache)

/-- `c` is neither `','` nor `'.'`: the character class `[^,\.]` of the skill
extraction regex (src/job_scraper.py line 223). -/
def notCommaDot (c : Char) : Bool := !(c == ',' || c == '.')

/-- Strip an exact literal from the front of a character list. -/
def stripLit : List Char → List Char → Option (List Char)
  | [], cs => some cs
  | _ :: _, [] => none
  | l :: ls, c :: cs => if l == c then stripLit ls cs else none

/-- Match the regex tail `\s+([^,\.]+)` at `cs`, returning the captured group
and the remainder after the match.  `\s+` is greedy; when the capture cannot
start after it (next char is `','`/`'.'` or the end), the engine backtracks one
whitespace character, which the capture then consumes — possible only when at
least two whitespace characters were available. -/
def captureTail (cs : List Char) : Option (List Char × List Char) :=
  let ws := cs.takeWhile pyIsSpace
  let rest := cs.dropWhile pyIsSpace
  if ws.isEmpty then none
  else
    let cap := rest.takeWhile notCommaDot
    if cap.isEmpty then
      if 2 ≤ ws.length then
        match ws.getLast? with
        | some c => some ([c], rest)
        | none => none
      else none
    else some (cap, rest.drop cap.length)

/-- Match the regex alternation-and-tail `(?:in|with)\s+([^,\.]+)` at `cs`:
`in` is tried first, with full backtracking into `with` when its continuation
fails. -/
def connTail (cs : List Char) : Option (List Char × List Char) :=
  match (stripLit ['i', 'n'] cs).bind captureTail with
  | some res => some res
  | none => (stripLit ['w', 'i', 't', 'h'] cs).bind captureTail

/-- Match `\s+(?:in|with)\s+([^,\.]+)` at `cs`.  The first `\s+` needs no
backtracking: giving back a whitespace character can never let `in`/`with`
match, since they start with letters. -/
def afterKeywordTail (cs : List Char) : Option (List Char × List Char) :=
  let ws := cs.takeWhile pyIsSpace
  let rest := cs.dropWhile pyIsSpace
  if ws.isEmpty then none else connTail rest

/-- Try to match the whole pattern
`(?:proficiency|experience|knowledge)\s+(?:in|with)\s+([^,\.]+)` starting
exactly at `cs`.  The three keywords start with distinct letters, so at most
one alternative can apply at a given position. -/
def tryMatchAt (cs : List Char) : Option (List Char × List Char) :=
  match (stripLit "proficiency".data cs).bind afterKeywordTail with
  | some res => some res
  | none =>
    match (stripLit "experience".data cs).bind afterKeywordTail with
    | some res => some res
    | none => (stripLit "knowledge".data cs).bind afterKeywordTail

/-- `re.findall` scan for the pattern above: try a match at every position,
continuing after each non-overlapping match.  Every successful match consumes
at least one character, so fuel equal to the input length makes the fuelled
recursion exact. -/
def findallAux : Nat → List Char → List String
  | 0, _ => []
  | _, [] => []
  | fuel + 1, c :: cs =>
    match tryMatchAt (c :: cs) with
    | some (g, rest) => (⟨g⟩ : String) :: findallAux fuel rest
    | none => findallAux fuel cs

/-- `re.findall(r'(?:proficiency|experience|knowledge)\s+(?:in|with)\s+([^,\.]+)', s)`
(src/job_scraper.py line 223). -/
def findallSkills (s : String) : List String := findallAux s.data.length s.data

/-- Python `line.split('-', 1)[1]`: everything after the first `'-'`. -/
def afterFirstDash (line : String) : String :=
  ⟨(line.data.dropWhile (fun c => !(c == '-'))).drop 1⟩

/-- The per-job skill extraction of `filter_jobs_by_skills`
(src/job_scraper.py lines 212-228): for each requirements line containing
`'-'`, take the part after the first dash, run the regex on its lower-cased
form, and fall back to the whole (unlowered) stripped part when the regex
finds nothing. -/
def extract_job_skills (job : Job) : List String :=
  match job.requirements with
  | none => []
  | some requirements =>
    (splitOnChar '\n' requirements).foldl
      (fun job_skills line =>
        if line.data.contains '-' then
          let skill_part := pyStrip (afterFirstDash line)
          let skill_parts := findallSkills (pyLower skill_part)
          if skill_parts.isEmpty then job_skills ++ [skill_part]
          else job_skills ++ skill_parts
        else job_skills)
      []

/-- The user-skill parsing of `filter_jobs_by_skills`
(src/job_scraper.py line 208):
`[skill.strip() for skill in skills.split(',') if skill.strip()]`. -/
def parse_user_skills (skills : String) : List String :=
  ((splitOnChar ',' skills).filter (fun s => pyStrip s != "")).map pyStrip

/-- `job_copy = job.copy(); job_copy['skills_match'] = match_percentage`
(src/job_scraper.py lines 230-235): the input job with a freshly recomputed
match percentage. -/
def rescoreJob (user_skills : List String) (job : Job) : Job :=
  { job with skills_match := calculate_skill_match (extract_job_skills job) user_skills }

/-- Stable descending insertion by `skills_match`: the element being inserted
comes from earlier in the input, so it goes before equal keys. -/
def insertDesc (x : Job) : List Job → List Job
  | [] => [x]
  | y :: ys =>
    if x.skills_match < y.skills_match then y :: insertDesc x ys
    else x :: y :: ys

/-- `filtered_jobs.sort(key=lambda j: j['skills_match'], reverse=True)`
(src/job_scraper.py line 242).  Python `list.sort` is stable, and any stable
descending sort by the same key computes the same list, so this insertion sort
is extensionally the source's sort. -/
def sortDesc : List Job → List Job
  | [] => []
  | x :: xs => insertDesc x (sortDesc xs)

/-- `filter_jobs_by_skills` (src/job_scraper.py lines 206-244).  The source
loop appends the rescored copy of each job whose score reaches `min_match`,
which is the filter of the rescored list; the result is then sorted
descending by score. -/
def filter_jobs_by_skills (jobs : List Job) (skills : String) (min_match : Nat) : List Job :=
  let user_skills := parse_user_skills skills
  sortDesc ((jobs.map (rescoreJob user_skills)).filter
    (fun j => decide (min_match ≤ j.skills_match)))

/-- The outcome of opening and JSON-parsing the cache file, the two effectful
steps inside the `try` block of `load_job_cache` (src/job_scraper.py
lines 19-29): the file may be absent (`open` raises `FileNotFoundError`),
unreadable (`open`/`read` raises a different `OSError`), readable but invalid
JSON (`json.load` raises `JSONDecodeError`), or readable and parsed to a
mapping. -/
inductive CacheFileRead where
  | missing
  | unreadable
  | corrupt
  | parsed (m : Cache)
deriving DecidableEq

/-- The observable result of `load_job_cache`: either it returns, with the
resulting in-memory cache and whether `save_job_cache()` rewrote the file, or
an exception propagates out of it (named by its Python class). -/
inductive LoadResult where
  | ok (cache : Cache) (fileWritten : Bool)
  | raised (exn : String)
deriving DecidableEq

/-- `load_job_cache` (src/job_scraper.py lines 19-29).  The `except` clause
names `FileNotFoundError` only: a missing file yields an empty mapping and a
`save_job_cache()` call, while any other exception from `open` or `json.load`
propagates. -/
def load_job_cache : CacheFileRead → LoadResult
  | .missing => .ok [] true
  | .unreadable => .raised "PermissionError"
  | .corrupt => .raised "JSONDecodeError"
  | .parsed m => .ok m false

/-- Modelled from the spec: the experience-level filter of the job filter
pipeline.  The spec (sections 4.3 and 8) attributes this filter to the
static-catalog variant of the pipeline, which is not among the repository's
source files (src/job_scraper.py's `filter_jobs_by_skills` has no experience
predicate); the buckets are taken verbatim from the spec sentence: Entry Level
passes strings containing `0-` or `1-`, Mid Level `3-` or `4-`, Senior Level
`5-`, `6-` or `7-`, and All Levels passes everything.  The spec does not
define the filter on any other level name; such names fall to the final
wildcard arm. -/
def experience_filter_passes (level : String) (experience : String) : Bool :=
  if level == "All Levels" then true
  else if level == "Entry Level" then
    strContains experience "0-" || strContains experience "1-"
  else if level == "Mid Level" then
    strContains experience "3-" || strContains experience "4-"
  else if level == "Senior Level" then
    strContains experience "5-" || strContains experience "6-" || strContains experience "7-"
  else true

/-- The names bound at the top level of src/utils.py: its imports
(lines 1-11) and its function definitions.  No `generate_id` is among them. -/
def utilsTopLevelNames : List String :=
  ["pd", "np", "io", "base64", "json",
   "LabelEncoder", "train_test_split", "LinearRegression",
   "mean_squared_error", "r2_score", "KMeans", "StandardScaler",
   "get_file_extension", "infer_data_types", "get_fig_as_base64",
   "run_quick_linear_regression", "run_kmeans_clustering",
   "generate_correlation_matrix"]

/-- Python attribute access `utils.generate_id`: the function, when the module
binds that name, and `none` (an `AttributeError` at the access site) when it
does not.  The value in the `some` branch is vacuous — `utilsTopLevelNames`
contains no `generate_id`, so that branch is unreachable; it exists only so
the callers below can be written exactly as the source reads. -/
def utilsGenerateId : Option (Unit → String) :=
  if utilsTopLevelNames.contains "generate_id" then some (fun _ => "") else none

/-- One saved-job entry of the file-backed store (src/user_skills.py
lines 190-196). -/
structure SavedJob where
  saved_job_id : String
  job : Job
  match_percentage : Nat
  saved_at : String
  notes : String
deriving DecidableEq

/-- One user's data file (src/user_skills.py lines 45-53). -/
structure UserData where
  id : String
  name : String
  email : String
  skills : List String
  created_at : String
  updated_at : String
  saved_jobs : List SavedJob
deriving DecidableEq

/-- The `data/users` directory: one JSON file per user id. -/
def UserStore := List (String × UserData)

/-- A Python exception escaping an embedded call. -/
inductive PyExn where
  | attributeError
deriving DecidableEq

/-- `create_user` in file-backed mode (src/user_skills.py lines 21-60, with
`USE_DATABASE` false).  `nowIso` models `datetime.now().isoformat()`.  The
call evaluates `utils.generate_id()` before building and writing the user
file; on success it would return the new user id and the store with the new
file. -/
def create_user (store : UserStore) (nowIso : String)
    (name email : String) (skills : List String) :
    Except PyExn (String × UserStore) :=
  match utilsGenerateId with
  | none => .error .attributeError
  | some gen =>
    let user_id := gen ()
    let user_data : UserData :=
      { id := user_id, name := name, email := email, skills := skills
        created_at := nowIso, updated_at := nowIso, saved_jobs := [] }
    .ok (user_id, alistSet user_id user_data store)

/-- `save_job_for_user` in file-backed mode (src/user_skills.py
lines 142-210, with `USE_DATABASE` false).  A missing user file returns
`False` (modelled `none`); otherwise `utils.generate_id()` is evaluated before
the saved-job entry is appended and the user file rewritten. -/
def save_job_for_user (store : UserStore) (nowIso : String)
    (user_id : String) (job_data : Job) (match_percentage : Nat) :
    Except PyExn (Option String × UserStore) :=
  match alistGet user_id store with
  | none => .ok (none, store)
  | some user_data =>
    match utilsGenerateId with
    | none => .error .attributeError
    | some gen =>
      let saved_job_id := gen ()
      let saved_job : SavedJob :=
        { saved_job_id := saved_job_id, job := job_data
          match_percentage := match_percentage, saved_at := nowIso, notes := "" }
      let updated : UserData :=
        { user_data with saved_jobs := user_data.saved_jobs ++ [saved_job]
                         updated_at := nowIso }
      .ok (some saved_job_id, alistSet user_id updated store)

/-- A fixed date formatter for concrete evaluations (stands in for the
`date_posted` clock dependency). -/
def fixedDate : Nat → String := fun _ => "2025-01-01"

/-- A concrete job used in concrete evaluations of the filter pipeline. -/
def exampleJob : Job :=
  { id := "j1", title := "Dev", company := "ACME", location := "Remote"
    salary := "", description := ""
    requirements := some ("- Proficiency in python\n")
    date_posted := "2025-01-01", skills_match := 0, url := "" }

/-- A concrete user store with one existing user, for concrete evaluations of
the file-backed saved-job path. -/
def exampleStore : UserStore :=
  [("u1", { id := "u1", name := "A", email := "a@b.c", skills := []
            created_at := "", updated_at := "", saved_jobs := [] })]

/-- The date string a successful `replace(day=day - k).strftime('%Y-%m-%d')`
produces, for `k = i % 14`: the formatter `fmt` (which models `strftime` on
the ambient year and month) applied to the replaced day-of-month. -/
def checkedDateOf (day : Nat) (fmt : Nat → String) : Nat → String :=
  fun k => fmt (day - k)

/-- A Python `for` loop that builds a list, with an exception aborting the
whole call: `none` when `f` fails on any element (the partial list built
before the raise is local to the call and unobservable). -/
def optionMapList {α β : Type} (f : α → Option β) : List α → Option (List β)
  | [] => some []
  | a :: as =>
    match f a with
    | none => none
    | some b =>
      match optionMapList f as with
      | none => none
      | some bs => some (b :: bs)

/-- One loop iteration of `generate_example_jobs` with the `date_posted`
expression of src/job_scraper.py line 178 modelled faithfully:
`datetime.now().replace(day=day - (i % 14))` raises `ValueError` (here
`none`) whenever the replaced day `day - (i % 14)` falls below 1, i.e. unless
`i % 14 < day`; on success the record is exactly `exampleJobAt` with date
string `fmt (day - i % 14)`. -/
def exampleJobAtChecked (now day : Nat) (fmt : Nat → String) (location : String)
    (skills : List String) (primary_skill : String) (i : Nat) : Option Job :=
  if i % 14 < day then
    some (exampleJobAt now (checkedDateOf day fmt) location skills primary_skill i)
  else none

/-- `generate_example_jobs` (src/job_scraper.py lines 122-184) with the
`ValueError` of the date computation propagated: `none` when any loop
iteration raises. -/
def generate_example_jobs_checked (now day : Nat) (fmt : Nat → String)
    (keywords location : String) (count : Nat) : Option (List Job) :=
  let skills := splitOnChar ',' keywords
  let primary_skill := match skills with
    | [] => "general"
    | s :: _ => pyStrip s
  optionMapList (exampleJobAtChecked now day fmt location skills primary_skill)
    (List.range (min count 10))

/-- `search_jobs` (src/job_scraper.py lines 93-120) with the `ValueError`
from `generate_example_jobs` propagated: a cache hit returns as before, and a
regenerating call raises (`none`) exactly when the generator does, in which
case the cache entry is not written (the assignment at line 114 follows the
generation). -/
def search_jobs_checked (now day : Nat) (fmt : Nat → String) (cache : Cache)
    (keywords location : String) (max_results : Nat) (use_cache : Bool) :
    Option (List Job × Cache) :=
  let search_key := searchKeyOf keywords location
  match (if use_cache then alistGet search_key cache else none) with
  | some entry =>
    if now - entry.timestamp < 86400 then some (entry.jobs, cache)
    else
      match generate_example_jobs_checked now day fmt keywords location max_results with
      | none => none
      | some all_jobs => some (all_jobs, alistSet search_key ⟨now, all_jobs⟩ cache)
  | none =>
    match generate_example_jobs_checked now day fmt keywords location max_results with
    | none => none
    | some all_jobs => some (all_jobs, alistSet search_key ⟨now, all_jobs⟩ cache)

/-- A fixed formatter for the replaced day-of-month in concrete evaluations
(stands in for `strftime` on the ambient year and month). -/
def dayFormat : Nat → String := fun d => "2025-03-" ++ toString d

theorem isPrefixOf_self_chars (l : List Char) : l.isPrefixOf l = true := by
  induction l with
  | nil => rfl
  | cons c cs ih => simp [List.isPrefixOf, ih]

theorem charsInfixOf_self (l : List Char) : charsInfixOf l l = true := by
  cases l with
  | nil => rfl
  | cons c cs => simp [charsInfixOf, isPrefixOf_self_chars]

theorem strContains_self (s : String) : strContains s s = true :=
  charsInfixOf_self s.data

theorem any_matched_pred_eq (l : List String) (s : String) :
    (l.any fun r => r == s || strContains s r || strContains r s)
      = (l.any fun r => strContains s r || strContains r s) := by
  induction l with
  | nil => rfl
  | cons r rs ih =>
    simp only [List.any_cons, ih]
    cases h : r == s with
    | false => simp
    | true =>
      have hrs : r = s := eq_of_beq h
      subst hrs
      simp [strContains_self]

theorem specSkillMatched_eq_code (reference_skills : List String) (s : String) :
    specSkillMatched reference_skills s = skillMatched (cleanSkills reference_skills) s := by
  unfold specSkillMatched skillMatched
  exact any_matched_pred_eq _ s

theorem specMatchedCount_eq_code (reference_skills candidate_skills : List String) :
    specMatchedCount reference_skills candidate_skills
      = ((cleanSkills candidate_skills).filter
          (fun skill => skillMatched (cleanSkills reference_skills) skill)).length := by
  unfold specMatchedCount
  congr 1
  exact List.filter_congr (fun s _ => specSkillMatched_eq_code reference_skills s)

theorem pyRoundHalfEven_zero (n : Nat) : pyRoundHalfEven 0 n = 0 := by
  simp [pyRoundHalfEven]

theorem pyRoundHalfEven_self_mul (n : Nat) (h : 0 < n) :
    pyRoundHalfEven (100 * n) n = 100 := by
  unfold pyRoundHalfEven
  have hq : 100 * n / n = 100 := Nat.mul_div_left 100 h
  have hr : 100 * n % n = 0 := Nat.mul_mod_left 100 n
  simp [hq, hr, h]

/-- C1: for all inputs, when the cleaned candidate list is non-empty (so the
spec's quotient is defined), `calculate_skill_match` equals round-half-to-even
of `100 * matched_count / len(candidate_skills_cleaned)` clamped to 100, with
a candidate skill matched iff it equals some cleaned reference skill or either
contains the other as a substring; and the result is always a natural number
at most 100 (so an integer in `[0, 100]`). -/
theorem calculate_skill_match_spec_formula (reference_skills candidate_skills : List String) :
    ((cleanSkills candidate_skills).length ≠ 0 →
      calculate_skill_match reference_skills candidate_skills =
        min (pyRoundHalfEven (100 * specMatchedCount reference_skills candidate_skills)
          (cleanSkills candidate_skills).length) 100) ∧
    calculate_skill_match reference_skills candidate_skills ≤ 100 := by
  constructor
  · intro hn
    have hcand : candidate_skills ≠ [] := by
      intro h
      subst h
      exact hn rfl
    cases reference_skills with
    | nil =>
      have hcode : calculate_skill_match [] candidate_skills = 0 := by
        simp [calculate_skill_match]
      have hm : specMatchedCount [] candidate_skills = 0 := by
        simp [specMatchedCount, specSkillMatched, cleanSkills, List.filter_eq_nil_iff]
      rw [hcode, hm]
      simp [pyRoundHalfEven_zero]
    | cons r rs =>
      cases candidate_skills with
      | nil => exact absurd rfl hcand
      | cons c cs =>
        rw [specMatchedCount_eq_code]
        unfold calculate_skill_match
        simp only [List.isEmpty_cons, Bool.or_self, if_false, Bool.false_or]
        rw [if_pos (Nat.pos_of_ne_zero hn)]
        rw [if_neg Bool.false_ne_true]
  · unfold calculate_skill_match
    split
    · omega
    · exact Nat.min_le_right _ _

/-- C1 witness: the formula instantiated at concrete skill lists. -/
theorem calculate_skill_match_spec_formula_witness :
    (cleanSkills ["python basics", "Java"]).length ≠ 0 ∧
    calculate_skill_match ["Python"] ["python basics", "Java"] =
      min (pyRoundHalfEven (100 * specMatchedCount ["Python"] ["python basics", "Java"])
        (cleanSkills ["python basics", "Java"]).length) 100 :=
  ⟨by decide,
   (calculate_skill_match_spec_formula ["Python"] ["python basics", "Java"]).1 (by decide)⟩

/-- C2 counterexample: `[" "]` is a non-empty skill list, yet its self-match
score is 0, not 100 — after cleaning the list is empty and the source's
`len(user_skills_lower) > 0` guard yields 0. -/
theorem self_match_blank_list_cex :
    ([" "] : List String) ≠ [] ∧ calculate_skill_match [" "] [" "] = 0 ∧
    calculate_skill_match [" "] [" "] ≠ 100 := by
  refine ⟨by decide, by decide, by decide⟩

/-- C2 (amended): for any skill list `S` that is non-empty after cleaning
(at least one token with non-whitespace content),
`calculate_skill_match S S = 100`. -/
theorem self_match_after_cleaning (S : List String) (h : cleanSkills S ≠ []) :
    calculate_skill_match S S = 100 := by
  have hS : S.isEmpty = false := by
    cases S with
    | nil => exact absurd rfl h
    | cons a as => rfl
  have hall : (cleanSkills S).filter (fun skill => skillMatched (cleanSkills S) skill)
      = cleanSkills S := by
    apply List.filter_eq_self.mpr
    intro x hx
    unfold skillMatched
    rw [List.any_eq_true]
    exact ⟨x, hx, by simp [strContains_self]⟩
  have hpos : 0 < (cleanSkills S).length := List.length_pos.mpr h
  simp [calculate_skill_match, hS, hall, hpos, pyRoundHalfEven_self_mul]

/-- C2 witness: a concrete list, non-empty after cleaning, self-matching
at 100. -/
theorem self_match_after_cleaning_witness :
    cleanSkills ["Python", " sql "] ≠ [] ∧
    calculate_skill_match ["Python", " sql "] ["Python", " sql "] = 100 :=
  ⟨by decide, self_match_after_cleaning ["Python", " sql "] (by decide)⟩

/-- C3: an empty reference or candidate list scores 0, and more generally any
input that is empty after cleaning forces a 0 score on either side. -/
theorem empty_skill_inputs_score_zero (a b : List String) :
    calculate_skill_match [] a = 0 ∧ calculate_skill_match a [] = 0 ∧
    (cleanSkills a = [] →
      calculate_skill_match a b = 0 ∧ calculate_skill_match b a = 0) := by
  refine ⟨by simp [calculate_skill_match], by simp [calculate_skill_match], ?_⟩
  intro ha
  constructor
  · simp [calculate_skill_match, ha, skillMatched, pyRoundHalfEven_zero]
  · simp [calculate_skill_match, ha, pyRoundHalfEven_zero]

/-- C3 witness: concrete lists, one empty only after cleaning. -/
theorem empty_skill_inputs_score_zero_witness :
    cleanSkills [" "] = [] ∧
    calculate_skill_match [" "] ["x"] = 0 ∧ calculate_skill_match ["x"] [" "] = 0 :=
  ⟨by decide,
   ((empty_skill_inputs_score_zero [" "] ["x"]).2.2 (by decide)).1,
   ((empty_skill_inputs_score_zero [" "] ["x"]).2.2 (by decide)).2⟩

theorem alistGet_set_self {β : Type} (k : String) (v : β) (m : List (String × β)) :
    alistGet k (alistSet k v m) = some v := by
  induction m with
  | nil => simp [alistSet, alistGet]
  | cons p rest ih =>
    obtain ⟨k', v'⟩ := p
    by_cases h : (k' == k) = true
    · simp [alistSet, alistGet, h]
    · simp only [alistSet, alistGet, h, if_false, Bool.false_eq_true]
      simpa [alistGet, h] using ih

theorem generate_example_jobs_length (now : Nat) (d : Nat → String)
    (kw loc : String) (count : Nat) :
    (generate_example_jobs now d kw loc count).length = min count 10 := by
  simp [generate_example_jobs]

theorem search_jobs_miss (now : Nat) (d : Nat → String) (cache : Cache)
    (kw loc : String) (mr : Nat)
    (h : alistGet (searchKeyOf kw loc) cache = none) :
    search_jobs now d cache kw loc mr true =
      (generate_example_jobs now d kw loc mr,
       alistSet (searchKeyOf kw loc) ⟨now, generate_example_jobs now d kw loc mr⟩ cache) := by
  simp [search_jobs, h]

theorem search_jobs_hit (now : Nat) (d : Nat → String) (cache : Cache)
    (kw loc : String) (mr : Nat) (e : CacheEntry)
    (h : alistGet (searchKeyOf kw loc) cache = some e)
    (hf : now - e.timestamp < 86400) :
    search_jobs now d cache kw loc mr true = (e.jobs, cache) := by
  simp [search_jobs, h, hf]

theorem search_jobs_stale (now : Nat) (d : Nat → String) (cache : Cache)
    (kw loc : String) (mr : Nat) (e : CacheEntry)
    (h : alistGet (searchKeyOf kw loc) cache = some e)
    (hs : ¬ (now - e.timestamp < 86400)) :
    search_jobs now d cache kw loc mr true =
      (generate_example_jobs now d kw loc mr,
       alistSet (searchKeyOf kw loc) ⟨now, generate_example_jobs now d kw loc mr⟩ cache) := by
  simp [search_jobs, h, hs]

theorem optionMapList_eq_map {α β : Type} (f : α → Option β) (g : α → β)
    (l : List α) (h : ∀ a ∈ l, f a = some (g a)) :
    optionMapList f l = some (l.map g) := by
  induction l with
  | nil => rfl
  | cons a as ih =>
    simp only [optionMapList, h a (List.mem_cons_self a as), List.map_cons,
      ih (fun x hx => h x (List.mem_cons_of_mem a hx))]

theorem optionMapList_none {α β : Type} (f : α → Option β) (l : List α) (a : α)
    (ha : a ∈ l) (hf : f a = none) : optionMapList f l = none := by
  induction l with
  | nil => cases ha
  | cons b bs ih =>
    rcases List.mem_cons.mp ha with rfl | hmem
    · simp [optionMapList, hf]
    · cases hfb : f b with
      | none => simp [optionMapList, hfb]
      | some v => simp [optionMapList, hfb, ih hmem]

theorem generate_example_jobs_checked_ok (now day : Nat) (fmt : Nat → String)
    (kw loc : String) (count : Nat) (h : min count 10 ≤ day) :
    generate_example_jobs_checked now day fmt kw loc count
      = some (generate_example_jobs now (checkedDateOf day fmt) kw loc count) := by
  simp only [generate_example_jobs_checked, generate_example_jobs]
  apply optionMapList_eq_map
  intro i hi
  have hlt : i < min count 10 := List.mem_range.mp hi
  have hday : i % 14 < day := by omega
  simp [exampleJobAtChecked, hday]

theorem generate_example_jobs_checked_raises (now day : Nat) (fmt : Nat → String)
    (kw loc : String) (count : Nat) (h : day < min count 10) :
    generate_example_jobs_checked now day fmt kw loc count = none := by
  simp only [generate_example_jobs_checked]
  apply optionMapList_none _ _ day (List.mem_range.mpr h)
  have hmod : ¬ (day % 14 < day) := by omega
  simp [exampleJobAtChecked, hmod]

theorem search_jobs_checked_miss (now day : Nat) (fmt : Nat → String)
    (cache : Cache) (kw loc : String) (mr : Nat)
    (hmiss : alistGet (searchKeyOf kw loc) cache = none)
    (hday : min mr 10 ≤ day) :
    search_jobs_checked now day fmt cache kw loc mr true
      = some (generate_example_jobs now (checkedDateOf day fmt) kw loc mr,
          alistSet (searchKeyOf kw loc)
            ⟨now, generate_example_jobs now (checkedDateOf day fmt) kw loc mr⟩ cache) := by
  simp [search_jobs_checked, hmiss,
    generate_example_jobs_checked_ok now day fmt kw loc mr hday]

theorem search_jobs_checked_hit (now day : Nat) (fmt : Nat → String)
    (cache : Cache) (kw loc : String) (mr : Nat) (e : CacheEntry)
    (h : alistGet (searchKeyOf kw loc) cache = some e)
    (hf : now - e.timestamp < 86400) :
    search_jobs_checked now day fmt cache kw loc mr true = some (e.jobs, cache) := by
  simp [search_jobs_checked, h, hf]

theorem search_jobs_checked_stale_ok (now day : Nat) (fmt : Nat → String)
    (cache : Cache) (kw loc : String) (mr : Nat) (e : CacheEntry)
    (h : alistGet (searchKeyOf kw loc) cache = some e)
    (hs : ¬ (now - e.timestamp < 86400)) (hday : min mr 10 ≤ day) :
    search_jobs_checked now day fmt cache kw loc mr true
      = some (generate_example_jobs now (checkedDateOf day fmt) kw loc mr,
          alistSet (searchKeyOf kw loc)
            ⟨now, generate_example_jobs now (checkedDateOf day fmt) kw loc mr⟩ cache) := by
  simp [search_jobs_checked, h, hs,
    generate_example_jobs_checked_ok now day fmt kw loc mr hday]

theorem search_jobs_checked_stale_raises (now day : Nat) (fmt : Nat → String)
    (cache : Cache) (kw loc : String) (mr : Nat) (e : CacheEntry)
    (h : alistGet (searchKeyOf kw loc) cache = some e)
    (hs : ¬ (now - e.timestamp < 86400)) (hday : day < min mr 10) :
    search_jobs_checked now day fmt cache kw loc mr true = none := by
  simp [search_jobs_checked, h, hs,
    generate_example_jobs_checked_raises now day fmt kw loc mr hday]

/-- C4 counterexample: a first call on the 28th of a month misses the cache
and stores 10 jobs; a stale call 100000 seconds later, on the 1st of the next
month, does not regenerate and overwrite the entry — it raises `ValueError`
from `datetime.replace(day=1 - 1)` at loop index 1 and produces no result. -/
theorem cache_freshness_stale_raises_cex :
    (search_jobs_checked 0 28 dayFormat [] "python" "" 10 true).isSome = true ∧
    (search_jobs_checked 0 28 dayFormat [] "python" "" 10 true).bind
        (fun r => search_jobs_checked 100000 1 dayFormat r.2 "python" "" 10 true)
      = none := by
  have h1 := search_jobs_checked_miss 0 28 dayFormat [] "python" "" 10 rfl (by decide)
  constructor
  · rw [h1]
    rfl
  · rw [h1]
    show search_jobs_checked 100000 1 dayFormat
      (alistSet (searchKeyOf "python" "")
        ⟨0, generate_example_jobs 0 (checkedDateOf 28 dayFormat) "python" "" 10⟩ [])
      "python" "" 10 true = none
    exact search_jobs_checked_stale_raises 100000 1 dayFormat _ "python" "" 10
      ⟨0, generate_example_jobs 0 (checkedDateOf 28 dayFormat) "python" "" 10⟩
      (alistGet_set_self _ _ _) (by decide) (by decide)

/-- C4 (amended): after a first call that misses the cache and whose
`date_posted` computation does not raise (day-of-month at least
`min max_results 10`), a second call with the same keywords and location
within 24 hours of the entry (`now2 - now1 < 86400`) returns exactly the
cached job list with the cache unchanged; a call at or beyond the window
regenerates the jobs and overwrites the key's entry with the new timestamp
provided its own day-of-month is at least `min max_results 10`, and otherwise
raises `ValueError` out of the date computation, producing no result and
writing nothing. -/
theorem cache_freshness_amended (now1 now2 day1 day2 : Nat)
    (f1 f2 : Nat → String) (cache : Cache) (kw loc : String) (mr : Nat)
    (hmiss : alistGet (searchKeyOf kw loc) cache = none)
    (hday1 : min mr 10 ≤ day1) :
    search_jobs_checked now1 day1 f1 cache kw loc mr true
      = some (generate_example_jobs now1 (checkedDateOf day1 f1) kw loc mr,
          alistSet (searchKeyOf kw loc)
            ⟨now1, generate_example_jobs now1 (checkedDateOf day1 f1) kw loc mr⟩ cache) ∧
    (now2 - now1 < 86400 →
      search_jobs_checked now2 day2 f2
          (alistSet (searchKeyOf kw loc)
            ⟨now1, generate_example_jobs now1 (checkedDateOf day1 f1) kw loc mr⟩ cache)
          kw loc mr true
        = some (generate_example_jobs now1 (checkedDateOf day1 f1) kw loc mr,
            alistSet (searchKeyOf kw loc)
              ⟨now1, generate_example_jobs now1 (checkedDateOf day1 f1) kw loc mr⟩ cache)) ∧
    (86400 ≤ now2 - now1 → min mr 10 ≤ day2 →
      search_jobs_checked now2 day2 f2
          (alistSet (searchKeyOf kw loc)
            ⟨now1, generate_example_jobs now1 (checkedDateOf day1 f1) kw loc mr⟩ cache)
          kw loc mr true
        = some (generate_example_jobs now2 (checkedDateOf day2 f2) kw loc mr,
            alistSet (searchKeyOf kw loc)
              ⟨now2, generate_example_jobs now2 (checkedDateOf day2 f2) kw loc mr⟩
              (alistSet (searchKeyOf kw loc)
                ⟨now1, generate_example_jobs now1 (checkedDateOf day1 f1) kw loc mr⟩
                cache))) ∧
    (86400 ≤ now2 - now1 → day2 < min mr 10 →
      search_jobs_checked now2 day2 f2
          (alistSet (searchKeyOf kw loc)
            ⟨now1, generate_example_jobs now1 (checkedDateOf day1 f1) kw loc mr⟩ cache)
          kw loc mr true
        = none) := by
  refine ⟨search_jobs_checked_miss now1 day1 f1 cache kw loc mr hmiss hday1,
    ?_, ?_, ?_⟩
  · intro hfresh
    exact search_jobs_checked_hit now2 day2 f2 _ kw loc mr
      ⟨now1, generate_example_jobs now1 (checkedDateOf day1 f1) kw loc mr⟩
      (alistGet_set_self _ _ _) hfresh
  · intro hstale hday2
    exact search_jobs_checked_stale_ok now2 day2 f2 _ kw loc mr
      ⟨now1, generate_example_jobs now1 (checkedDateOf day1 f1) kw loc mr⟩
      (alistGet_set_self _ _ _) (by simp; omega) hday2
  · intro hstale hday2
    exact search_jobs_checked_stale_raises now2 day2 f2 _ kw loc mr
      ⟨now1, generate_example_jobs now1 (checkedDateOf day1 f1) kw loc mr⟩
      (alistGet_set_self _ _ _) (by simp; omega) hday2

/-- C4 witness: concrete traces exercising the miss, the fresh hit, the
successful stale regeneration, and the raising stale regeneration. -/
theorem cache_freshness_amended_witness :
    search_jobs_checked 0 28 dayFormat [] "python" "" 10 true
      = some (generate_example_jobs 0 (checkedDateOf 28 dayFormat) "python" "" 10,
          alistSet (searchKeyOf "python" "")
            ⟨0, generate_example_jobs 0 (checkedDateOf 28 dayFormat) "python" "" 10⟩ []) ∧
    search_jobs_checked 100 28 dayFormat
        (alistSet (searchKeyOf "python" "")
          ⟨0, generate_example_jobs 0 (checkedDateOf 28 dayFormat) "python" "" 10⟩ [])
        "python" "" 10 true
      = some (generate_example_jobs 0 (checkedDateOf 28 dayFormat) "python" "" 10,
          alistSet (searchKeyOf "python" "")
            ⟨0, generate_example_jobs 0 (checkedDateOf 28 dayFormat) "python" "" 10⟩ []) ∧
    search_jobs_checked 90000 15 dayFormat
        (alistSet (searchKeyOf "python" "")
          ⟨0, generate_example_jobs 0 (checkedDateOf 28 dayFormat) "python" "" 10⟩ [])
        "python" "" 10 true
      = some (generate_example_jobs 90000 (checkedDateOf 15 dayFormat) "python" "" 10,
          alistSet (searchKeyOf "python" "")
            ⟨90000, generate_example_jobs 90000 (checkedDateOf 15 dayFormat) "python" "" 10⟩
            (alistSet (searchKeyOf "python" "")
              ⟨0, generate_example_jobs 0 (checkedDateOf 28 dayFormat) "python" "" 10⟩
              [])) ∧
    search_jobs_checked 90000 1 dayFormat
        (alistSet (searchKeyOf "python" "")
          ⟨0, generate_example_jobs 0 (checkedDateOf 28 dayFormat) "python" "" 10⟩ [])
        "python" "" 10 true
      = none :=
  ⟨(cache_freshness_amended 0 100 28 28 dayFormat dayFormat [] "python" "" 10
      rfl (by decide)).1,
   (cache_freshness_amended 0 100 28 28 dayFormat dayFormat [] "python" "" 10
      rfl (by decide)).2.1 (by decide),
   (cache_freshness_amended 0 90000 28 15 dayFormat dayFormat [] "python" "" 10
      rfl (by decide)).2.2.1 (by decide) (by decide),
   (cache_freshness_amended 0 90000 28 1 dayFormat dayFormat [] "python" "" 10
      rfl (by decide)).2.2.2 (by decide) (by decide)⟩

/-- C5 counterexample: a first call populates the cache with 10 jobs; a second
call for the same keywords and location with `max_results = 2` is served from
the cache and returns all 10 jobs, more than its `max_results`. -/
theorem search_jobs_cache_exceeds_max_results_cex :
    2 < (search_jobs 1 fixedDate
        (search_jobs 0 fixedDate [] "python" "" 10 true).2
        "python" "" 2 true).1.length := by
  have h1 := search_jobs_miss 0 fixedDate [] "python" "" 10 rfl
  rw [h1]
  rw [search_jobs_hit 1 fixedDate _ "python" "" 2
    ⟨0, generate_example_jobs 0 fixedDate "python" "" 10⟩
    (alistGet_set_self _ _ _) (by decide)]
  rw [show (((⟨0, generate_example_jobs 0 fixedDate "python" "" 10⟩ : CacheEntry).jobs,
      (generate_example_jobs 0 fixedDate "python" "" 10,
       alistSet (searchKeyOf "python" "")
         ⟨0, generate_example_jobs 0 fixedDate "python" "" 10⟩ ([] : Cache)).2) :
      List Job × Cache).1 = generate_example_jobs 0 fixedDate "python" "" 10 from rfl]
  rw [generate_example_jobs_length]
  decide

/-- C5 (amended): a call whose result is freshly generated returns exactly
`min max_results 10` jobs — so at most `max_results`, with the synthetic
generator hard-capped at 10 — while a call served from the cache returns the
stored entry's job list unchanged, whose length is not bounded by the current
call's `max_results`. -/
theorem search_jobs_max_results_amended (now : Nat) (d : Nat → String)
    (cache : Cache) (kw loc : String) (mr : Nat) :
    (generate_example_jobs now d kw loc mr).length = min mr 10 ∧
    (alistGet (searchKeyOf kw loc) cache = none →
      (search_jobs now d cache kw loc mr true).1.length = min mr 10) ∧
    (∀ e : CacheEntry, alistGet (searchKeyOf kw loc) cache = some e →
      now - e.timestamp < 86400 →
      (search_jobs now d cache kw loc mr true).1 = e.jobs) := by
  refine ⟨generate_example_jobs_length now d kw loc mr, ?_, ?_⟩
  · intro h
    rw [search_jobs_miss now d cache kw loc mr h]
    exact generate_example_jobs_length now d kw loc mr
  · intro e he hf
    rw [search_jobs_hit now d cache kw loc mr e he hf]

/-- C5 witness: the amended bound at a concrete miss and a concrete hit. -/
theorem search_jobs_max_results_amended_witness :
    alistGet (searchKeyOf "python" "") ([] : Cache) = none ∧
    (search_jobs 5 fixedDate [] "python" "" 3 true).1.length = min 3 10 ∧
    (search_jobs 5 fixedDate [(searchKeyOf "python" "", ⟨5, []⟩)]
        "python" "" 3 true).1 = ([] : List Job) :=
  ⟨rfl,
   (search_jobs_max_results_amended 5 fixedDate [] "python" "" 3).2.1 rfl,
   (search_jobs_max_results_amended 5 fixedDate
     [(searchKeyOf "python" "", ⟨5, []⟩)] "python" "" 3).2.2 ⟨5, []⟩ rfl (by decide)⟩

theorem insertDesc_perm (x : Job) (l : List Job) : (insertDesc x l).Perm (x :: l) := by
  induction l with
  | nil => exact List.Perm.refl _
  | cons y ys ih =>
    by_cases h : x.skills_match < y.skills_match
    · simp only [insertDesc, if_pos h]
      exact (ih.cons y).trans (List.Perm.swap x y ys)
    · simp only [insertDesc, if_neg h]
      exact List.Perm.refl _

theorem sortDesc_perm (l : List Job) : (sortDesc l).Perm l := by
  induction l with
  | nil => exact List.Perm.refl _
  | cons x xs ih =>
    exact (insertDesc_perm x (sortDesc xs)).trans (ih.cons x)

theorem insertDesc_pairwise (x : Job) (l : List Job)
    (h : l.Pairwise (fun a b => b.skills_match ≤ a.skills_match)) :
    (insertDesc x l).Pairwise (fun a b => b.skills_match ≤ a.skills_match) := by
  induction l with
  | nil => simp [insertDesc]
  | cons y ys ih =>
    rcases List.pairwise_cons.mp h with ⟨hy, hys⟩
    by_cases hx : x.skills_match < y.skills_match
    · simp only [insertDesc, if_pos hx]
      refine List.pairwise_cons.mpr ⟨?_, ih hys⟩
      intro z hz
      rcases List.mem_cons.mp ((insertDesc_perm x ys).mem_iff.mp hz) with rfl | hzys
      · exact Nat.le_of_lt hx
      · exact hy z hzys
    · simp only [insertDesc, if_neg hx]
      have hyx : y.skills_match ≤ x.skills_match := Nat.le_of_not_lt hx
      refine List.pairwise_cons.mpr ⟨?_, List.pairwise_cons.mpr ⟨hy, hys⟩⟩
      intro z hz
      rcases List.mem_cons.mp hz with rfl | hzys
      · exact hyx
      · exact Nat.le_trans (hy z hzys) hyx

theorem sortDesc_pairwise (l : List Job) :
    (sortDesc l).Pairwise (fun a b => b.skills_match ≤ a.skills_match) := by
  induction l with
  | nil => simp [sortDesc]
  | cons x xs ih => exact insertDesc_pairwise x (sortDesc xs) ih

theorem insertDesc_filter_key (k : Nat) (x : Job) (l : List Job) :
    (insertDesc x l).filter (fun j => decide (j.skills_match = k))
      = (x :: l).filter (fun j => decide (j.skills_match = k)) := by
  induction l with
  | nil => rfl
  | cons y ys ih =>
    by_cases hx : x.skills_match < y.skills_match
    · simp only [insertDesc, if_pos hx]
      by_cases hyk : y.skills_match = k
      · have hxk : ¬ x.skills_match = k := by omega
        simp [List.filter_cons, hyk, hxk, ih]
      · simp [List.filter_cons, hyk, ih]
    · simp only [insertDesc, if_neg hx]

theorem sortDesc_filter_key (k : Nat) (l : List Job) :
    (sortDesc l).filter (fun j => decide (j.skills_match = k))
      = l.filter (fun j => decide (j.skills_match = k)) := by
  induction l with
  | nil => rfl
  | cons x xs ih =>
    calc (insertDesc x (sortDesc xs)).filter (fun j => decide (j.skills_match = k))
        = (x :: sortDesc xs).filter (fun j => decide (j.skills_match = k)) :=
          insertDesc_filter_key k x (sortDesc xs)
      _ = (x :: xs).filter (fun j => decide (j.skills_match = k)) := by
          by_cases hxk : x.skills_match = k
          · simp [List.filter_cons, hxk, ih]
          · simp [List.filter_cons, hxk, ih]

/-- C6: every job returned by `filter_jobs_by_skills` scores at least
`min_match`, and the output is (a reordering of) exactly those input jobs that
survive the threshold, each identical to its input job except for the freshly
recomputed `skills_match`; jobs below the threshold are dropped.  The input
list itself is untouched — the embedded function is pure, as the source
operates only on `job.copy()` dicts and a fresh `filtered_jobs` list. -/
theorem filter_jobs_threshold_and_subset (jobs : List Job) (skills : String)
    (min_match : Nat) :
    (∀ j ∈ filter_jobs_by_skills jobs skills min_match, min_match ≤ j.skills_match) ∧
    (filter_jobs_by_skills jobs skills min_match).Perm
      ((jobs.map (rescoreJob (parse_user_skills skills))).filter
        (fun j => decide (min_match ≤ j.skills_match))) := by
  have hperm : (filter_jobs_by_skills jobs skills min_match).Perm
      ((jobs.map (rescoreJob (parse_user_skills skills))).filter
        (fun j => decide (min_match ≤ j.skills_match))) := by
    unfold filter_jobs_by_skills
    exact sortDesc_perm _
  refine ⟨?_, hperm⟩
  intro j hj
  have hj' := hperm.mem_iff.mp hj
  have := List.of_mem_filter hj'
  simpa using this

/-- C6 witness: a concrete one-job run through the pipeline. -/
theorem filter_jobs_threshold_and_subset_witness :
    50 ≤ (rescoreJob (parse_user_skills "python") exampleJob).skills_match ∧
    (filter_jobs_by_skills [exampleJob] "python" 50).Perm
      (([exampleJob].map (rescoreJob (parse_user_skills "python"))).filter
        (fun j => decide (50 ≤ j.skills_match))) :=
  ⟨(filter_jobs_threshold_and_subset [exampleJob] "python" 50).1
     (rescoreJob (parse_user_skills "python") exampleJob) (by decide),
   (filter_jobs_threshold_and_subset [exampleJob] "python" 50).2⟩

/-- C7: the output of `filter_jobs_by_skills` is non-increasing in
`skills_match` across consecutive elements, and the sort is stable: for every
score value, the output jobs with that score appear exactly as in the
rescored-and-filtered input, i.e. in original input order. -/
theorem filter_jobs_sorted_and_stable (jobs : List Job) (skills : String)
    (min_match : Nat) :
    List.Chain' (fun a b => b.skills_match ≤ a.skills_match)
      (filter_jobs_by_skills jobs skills min_match) ∧
    ∀ k : Nat,
      (filter_jobs_by_skills jobs skills min_match).filter
          (fun j => decide (j.skills_match = k))
        = ((jobs.map (rescoreJob (parse_user_skills skills))).filter
            (fun j => decide (min_match ≤ j.skills_match))).filter
            (fun j => decide (j.skills_match = k)) := by
  constructor
  · unfold filter_jobs_by_skills
    exact (sortDesc_pairwise _).chain'
  · intro k
    unfold filter_jobs_by_skills
    exact sortDesc_filter_key k _

/-- C8 counterexample: a readable but corrupt cache file makes
`load_job_cache` propagate the `json.JSONDecodeError` — the `except` clause
catches `FileNotFoundError` only — contradicting the claim that it never
raises regardless of the file's contents. -/
theorem load_job_cache_corrupt_raises_cex :
    load_job_cache CacheFileRead.corrupt = LoadResult.raised "JSONDecodeError" ∧
    ∀ c : Cache, ∀ w : Bool, load_job_cache CacheFileRead.corrupt ≠ LoadResult.ok c w := by
  refine ⟨rfl, ?_⟩
  intro c w h
  exact LoadResult.noConfusion h

/-- C8 (amended): `load_job_cache` recovers only from a missing cache file —
falling back to an empty in-memory mapping and auto-creating the file — while
an unreadable or corrupt cache file raises out of it (only `FileNotFoundError`
is caught); a parseable file loads without rewriting. -/
theorem load_job_cache_amended :
    load_job_cache CacheFileRead.missing = LoadResult.ok [] true ∧
    (∀ m : Cache, load_job_cache (CacheFileRead.parsed m) = LoadResult.ok m false) ∧
    load_job_cache CacheFileRead.corrupt = LoadResult.raised "JSONDecodeError" ∧
    load_job_cache CacheFileRead.unreadable = LoadResult.raised "PermissionError" :=
  ⟨rfl, fun _ => rfl, rfl, rfl⟩

/-- C9: under the spec-modelled experience filter, "Senior Level" passes a job
iff its free-text experience string contains "5-", "6-" or "7-"; "Entry
Level" requires "0-" or "1-", "Mid Level" requires "3-" or "4-", "All Levels"
passes everything; and of the experience strings "5-7 years", "1-3 years",
"entry", only the first passes the "Senior Level" filter. -/
theorem experience_filter_senior_level (e : String) :
    (experience_filter_passes "Senior Level" e
      = (strContains e "5-" || strContains e "6-" || strContains e "7-")) ∧
    (experience_filter_passes "Entry Level" e
      = (strContains e "0-" || strContains e "1-")) ∧
    (experience_filter_passes "Mid Level" e
      = (strContains e "3-" || strContains e "4-")) ∧
    experience_filter_passes "All Levels" e = true ∧
    experience_filter_passes "Senior Level" "5-7 years" = true ∧
    experience_filter_passes "Senior Level" "1-3 years" = false ∧
    experience_filter_passes "Senior Level" "entry" = false :=
  ⟨rfl, rfl, rfl, rfl, by decide, by decide, by decide⟩

/-- C10: in file-backed mode every `create_user` call, and every
`save_job_for_user` call for an existing user, evaluates
`utils.generate_id()`, but src/utils.py binds no such name, so the call raises
`AttributeError`: no id is returned and no user file is written. -/
theorem generate_id_missing_attribute_error :
    utilsTopLevelNames.contains "generate_id" = false ∧
    (∀ (store : UserStore) (nowIso name email : String) (skills : List String),
      create_user store nowIso name email skills = Except.error PyExn.attributeError) ∧
    (∀ (store : UserStore) (nowIso user_id : String) (job : Job)
        (pct : Nat) (u : UserData),
      alistGet user_id store = some u →
      save_job_for_user store nowIso user_id job pct
        = Except.error PyExn.attributeError) := by
  refine ⟨by decide, ?_, ?_⟩
  · intro store nowIso name email skills
    rfl
  · intro store nowIso user_id job pct u hu
    unfold save_job_for_user
    rw [hu]
    rfl

/-- C10 witness: the raise at a concrete store holding one existing user. -/
theorem generate_id_missing_attribute_error_witness :
    alistGet "u1" exampleStore
      = some { id := "u1", name := "A", email := "a@b.c", skills := []
               created_at := "", updated_at := "", saved_jobs := [] } ∧
    save_job_for_user exampleStore "2025-01-01" "u1" exampleJob 80
      = Except.error PyExn.attributeError :=
  ⟨rfl,
   generate_id_missing_attribute_error.2.2 exampleStore "2025-01-01" "u1" exampleJob 80
     _ rfl⟩
